import Mathlib

/-!
A shallow embedding of `number_parser/parser.py` (the noviluni/number-parser
numeral grammar engine) together with theorems checking the natural-language
specification against it.

Strings are Lean `String`s (lists of characters); Python's unbounded
non-negative integer values are `Nat`. Python functions that can raise
`ValueError` are embedded as `Except String` results; functions that can
return `None` produce `Option` values. Regular-expression behaviour is
restricted to the ASCII word characters actually used by the lexicons.
-/

namespace NumberParser

/-! ## Python string primitives -/

/-- ASCII word character (Python regex word class: letters, digits, underscore).
Python's word class is Unicode-aware; the embedding restricts it to ASCII,
which covers the lexicon words and all inputs considered here. -/
def isWordChar (c : Char) : Bool :=
  ('a' ≤ c && c ≤ 'z') || ('A' ≤ c && c ≤ 'Z') || ('0' ≤ c && c ≤ '9') || c == '_'

/-- Characters Python `str.isspace` and `str.split()` treat as whitespace
(ASCII fragment). -/
def pyIsSpaceChar (c : Char) : Bool :=
  c == ' ' || c == '\t' || c == '\n' || c == '\x0d' || c == '\x0b' || c == '\x0c'

/-- Python `str.isspace`: non-empty and every character is whitespace. -/
def pyIsSpace (s : String) : Bool :=
  (s != "") && s.data.all pyIsSpaceChar

/-- ASCII decimal digit. -/
def pyIsDigit (c : Char) : Bool := '0' ≤ c && c ≤ '9'

/-- Python `str.isnumeric`, restricted to ASCII decimal digits: non-empty and
every character a digit. -/
def pyIsNumeric (s : String) : Bool :=
  (s != "") && s.data.all pyIsDigit

/-- Value of a decimal digit string (Python `int` on the strings produced and
accepted here, which are all plain digit runs). -/
def strToNat (s : String) : Nat :=
  s.data.foldl (fun n c => n * 10 + (c.toNat - 48)) 0

/-- Python `int(s)` as used on the engine's own output strings: defined exactly
on digit runs. -/
def pyIntOfStr (s : String) : Option Nat :=
  if pyIsNumeric s then some (strToNat s) else none

/-- Python `str.lower` on one character (ASCII fragment). -/
def pyLowerChar (c : Char) : Char :=
  if 'A' ≤ c && c ≤ 'Z' then Char.ofNat (c.toNat + 32) else c

/-- Python `str.lower` (ASCII fragment). -/
def pyToLower (s : String) : String := String.mk (s.data.map pyLowerChar)

/-- Modelled from the spec: `normalize` / `_strip_accents` (Unicode NFD
normalization followed by removal of combining marks) is an external,
data-driven utility whose Unicode tables are not part of the engine source.
It is embedded as a character translation covering the accented Latin letters
appearing in the supported lexicons, and the identity elsewhere. -/
def stripAccentChar (c : Char) : Char :=
  if c == 'á' then 'a'
  else if c == 'é' then 'e'
  else if c == 'í' then 'i'
  else if c == 'ó' then 'o'
  else if c == 'ú' then 'u'
  else if c == 'ü' then 'u'
  else if c == 'ñ' then 'n'
  else c

/-- `_strip_accents`: removes accents from the input word (see
`stripAccentChar` for the modelling of the Unicode data). -/
def _strip_accents (s : String) : String := String.mk (s.data.map stripAccentChar)

/-- Python `str.replace` (all non-overlapping occurrences, left to right),
computed with an explicit fuel bounded by the string length. The patterns
used by the engine are all non-empty, so the fuel never runs out. -/
def pyReplaceAux (pat rep : List Char) : Nat → List Char → List Char
  | _, [] => []
  | 0, l => l
  | fuel + 1, c :: rest =>
    if pat.isPrefixOf (c :: rest) then
      rep ++ pyReplaceAux pat rep fuel (List.drop pat.length (c :: rest))
    else
      c :: pyReplaceAux pat rep fuel rest

/-- Python `s.replace(pattern, replacement)`. -/
def pyReplace (s pattern replacement : String) : String :=
  String.mk (pyReplaceAux pattern.data replacement.data (s.data.length + 1) s.data)

/-- Python `s.endswith(t)`. -/
def pyEndsWith (s t : String) : Bool := t.data.isSuffixOf s.data

/-- Drop the last `n` characters of a string. -/
def pyDropRight (s : String) (n : Nat) : String :=
  String.mk (s.data.take (s.data.length - n))

/-- Python `re.sub(pat + '$', rep, s)` for a fixed newline-free pattern:
without MULTILINE, `$` matches at the end of the string and also just before
a newline at the end of the string, so the occurrence replaced is a trailing
`pat`, or a `pat` immediately before a single final newline (at most one of
the two positions can match when `pat` does not end in a newline). -/
def pyReSubSuffix (s pat rep : String) : String :=
  if pyEndsWith s pat then pyDropRight s pat.data.length ++ rep
  else if pyEndsWith s (pat ++ "\n") then
    pyDropRight s (pat.data.length + 1) ++ rep ++ "\n"
  else s

/-- Python `''.join(l)`. -/
def strJoin (l : List String) : String :=
  String.mk (l.map String.data).flatten

/-! ## Tokenization (`_tokenize` and helpers) -/

def SUPPORTED_LANGUAGES : List String := ["en", "es", "hi", "ru"]

def RE_BUG_LANGUAGES : List String := ["hi"]

/-- The soft-hyphen character removed by `_tokenize`. -/
def softHyphen : Char := Char.ofNat 173

/-- `input_string.replace('\xad', '')`. -/
def removeSoftHyphens (s : String) : String :=
  String.mk (s.data.filter (fun c => c != softHyphen))

/-- Core of Python `re.split(r'(\W)', s)`: every non-word character becomes its
own token (the separator is kept because the pattern is a capturing group), the
maximal word-character runs between separators become tokens, including the
empty runs at the ends and between adjacent separators. -/
def splitWAux : List Char → List Char → List (List Char)
  | [], acc => [acc.reverse]
  | c :: rest, acc =>
    if isWordChar c then splitWAux rest (c :: acc)
    else acc.reverse :: [c] :: splitWAux rest []

/-- Python `re.split(r'(\W)', s)`. -/
def reSplitW (s : String) : List String :=
  (splitWAux s.data []).map String.mk

/-- Core of Python `str.split()` (split on whitespace runs, dropping empties):
first split keeping empties. -/
def splitWsAux : List Char → List Char → List String
  | [], acc => [String.mk acc.reverse]
  | c :: rest, acc =>
    if pyIsSpaceChar c then String.mk acc.reverse :: splitWsAux rest []
    else splitWsAux rest (c :: acc)

/-- Python `s.split()` with no arguments. -/
def pySplitWhitespace (s : String) : List String :=
  (splitWsAux s.data []).filter (fun t => t != "")

/-- `_tokenize`: breaks the string on any non-word character, except for the
languages with the known tokenizer defect, which split on whitespace only. -/
def _tokenize (input_string : String) (language : String) : List String :=
  let input_string := removeSoftHyphens input_string
  if RE_BUG_LANGUAGES.contains language then pySplitWhitespace input_string
  else reSplitW input_string

/-- `_normalize_tokens`: lower-case then strip accents, per token. -/
def _normalize_tokens (token_list : List String) : List String :=
  token_list.map (fun token => _strip_accents (pyToLower token))

/-- `_normalize_dict`: strips the accent from each key of the table. -/
def _normalize_dict (lang_dict : List (String × Nat)) : List (String × Nat) :=
  lang_dict.map (fun p => (_strip_accents p.1, p.2))

/-! ## Lexicon (`LanguageData`) -/

/-- Word-to-value table (Python dict). The key sets of the per-language tables
are pairwise disjoint, so first-match lookup agrees with dict merging. -/
def memT (table : List (String × Nat)) (t : String) : Bool :=
  (table.lookup t).isSome

def lookupV (table : List (String × Nat)) (t : String) : Nat :=
  (table.lookup t).getD 0

/-- Membership test for the optional previous token (`None not in d` is false). -/
def omem (table : List (String × Nat)) : Option String → Bool
  | none => false
  | some t => memT table t

/-- The raw per-language data (`number_parser.data.<lang>.info`). -/
structure LanguageInfo where
  UNIT_NUMBERS : List (String × Nat)
  DIRECT_NUMBERS : List (String × Nat)
  TENS : List (String × Nat)
  HUNDREDS : List (String × Nat)
  BIG_POWERS_OF_TEN : List (String × Nat)
  SKIP_TOKENS : List String
  USE_LONG_SCALE : Bool

/-- `LanguageData`: the per-language tables after normalization, with the
derived merged tables and the maximum group value. -/
structure LanguageData where
  unit_numbers : List (String × Nat)
  direct_numbers : List (String × Nat)
  tens : List (String × Nat)
  hundreds : List (String × Nat)
  big_powers_of_ten : List (String × Nat)
  skip_tokens : List String
  all_numbers : List (String × Nat)
  unit_and_direct_numbers : List (String × Nat)
  maximum_group_value : Nat

/-- `LanguageData.__init__` minus the unsupported-language check (which lives
in `getLanguageData`): normalize each table, build the merged tables, and set
`maximum_group_value = 10000 if long scale else 100`. -/
def LanguageData.ofInfo (language_info : LanguageInfo) : LanguageData :=
  let u := _normalize_dict language_info.UNIT_NUMBERS
  let d := _normalize_dict language_info.DIRECT_NUMBERS
  let t := _normalize_dict language_info.TENS
  let h := _normalize_dict language_info.HUNDREDS
  let b := _normalize_dict language_info.BIG_POWERS_OF_TEN
  { unit_numbers := u
    direct_numbers := d
    tens := t
    hundreds := h
    big_powers_of_ten := b
    skip_tokens := language_info.SKIP_TOKENS
    all_numbers := u ++ d ++ t ++ h ++ b
    unit_and_direct_numbers := u ++ d
    maximum_group_value := if language_info.USE_LONG_SCALE then 10000 else 100 }

/-- Modelled from the spec: the English lexicon data file
(`number_parser/data/en.py`) is external pure data; this is its shape for the
words exercised here — unit words, direct (alternate unit) words including
zero and the teens, ten words, no dedicated hundreds words, big powers of ten,
the skip word "and", short scale. -/
def enInfo : LanguageInfo :=
  { UNIT_NUMBERS := [("one", 1), ("two", 2), ("three", 3), ("four", 4), ("five", 5),
      ("six", 6), ("seven", 7), ("eight", 8), ("nine", 9)]
    DIRECT_NUMBERS := [("zero", 0), ("eleven", 11), ("twelve", 12), ("thirteen", 13),
      ("fourteen", 14), ("fifteen", 15), ("sixteen", 16), ("seventeen", 17),
      ("eighteen", 18), ("nineteen", 19)]
    TENS := [("ten", 10), ("twenty", 20), ("thirty", 30), ("forty", 40), ("fifty", 50),
      ("sixty", 60), ("seventy", 70), ("eighty", 80), ("ninety", 90)]
    HUNDREDS := []
    BIG_POWERS_OF_TEN := [("hundred", 100), ("thousand", 1000), ("million", 1000000),
      ("billion", 1000000000), ("trillion", 1000000000000)]
    SKIP_TOKENS := ["and"]
    USE_LONG_SCALE := false }

/-- Modelled from the spec: the Spanish lexicon data file is external pure
data; a representative fragment (short scale, skip word "y"). -/
def esInfo : LanguageInfo :=
  { UNIT_NUMBERS := [("uno", 1), ("dos", 2), ("tres", 3), ("cuatro", 4), ("cinco", 5),
      ("seis", 6), ("siete", 7), ("ocho", 8), ("nueve", 9)]
    DIRECT_NUMBERS := [("cero", 0), ("once", 11), ("doce", 12)]
    TENS := [("diez", 10), ("veinte", 20), ("treinta", 30)]
    HUNDREDS := [("ciento", 100), ("doscientos", 200)]
    BIG_POWERS_OF_TEN := [("cien", 100), ("mil", 1000), ("millón", 1000000)]
    SKIP_TOKENS := ["y"]
    USE_LONG_SCALE := false }

/-- Modelled from the spec: the Hindi lexicon data file is external pure data;
a representative transliterated fragment. Hindi is the long-scale language
(grouping by ten-thousands: hazaar, lakh, crore). -/
def hiInfo : LanguageInfo :=
  { UNIT_NUMBERS := [("ek", 1), ("do", 2), ("teen", 3), ("chaar", 4), ("paanch", 5)]
    DIRECT_NUMBERS := [("shunya", 0), ("gyaarah", 11)]
    TENS := [("das", 10), ("bees", 20), ("tees", 30)]
    HUNDREDS := []
    BIG_POWERS_OF_TEN := [("sau", 100), ("hazaar", 1000), ("lakh", 100000),
      ("crore", 10000000)]
    SKIP_TOKENS := []
    USE_LONG_SCALE := true }

/-- Modelled from the spec: the Russian lexicon data file is external pure
data; a representative transliterated fragment (short scale, dedicated
hundreds words, skip word "i"). -/
def ruInfo : LanguageInfo :=
  { UNIT_NUMBERS := [("odin", 1), ("dva", 2), ("tri", 3), ("chetyre", 4), ("pyat", 5)]
    DIRECT_NUMBERS := [("nol", 0), ("odinnadtsat", 11)]
    TENS := [("desyat", 10), ("dvadtsat", 20), ("tridtsat", 30)]
    HUNDREDS := [("sto", 100), ("dvesti", 200), ("trista", 300)]
    BIG_POWERS_OF_TEN := [("tysyacha", 1000), ("million", 1000000)]
    SKIP_TOKENS := ["i"]
    USE_LONG_SCALE := false }

/-- Table of per-language data modules (`import_module('number_parser.data.'
+ language)`); only consulted for supported codes. -/
def langInfo (language : String) : LanguageInfo :=
  if language == "en" then enInfo
  else if language == "es" then esInfo
  else if language == "hi" then hiInfo
  else ruInfo

/-- `LanguageData(language)`: `none` embeds the `ValueError` raised for a
language outside `SUPPORTED_LANGUAGES`. -/
def getLanguageData (language : String) : Option LanguageData :=
  if SUPPORTED_LANGUAGES.contains language then
    some (LanguageData.ofInfo (langInfo language))
  else none

def enData : LanguageData := LanguageData.ofInfo enInfo
def esData : LanguageData := LanguageData.ofInfo esInfo
def hiData : LanguageData := LanguageData.ofInfo hiInfo
def ruData : LanguageData := LanguageData.ofInfo ruInfo

/-- The `ValueError` message of `LanguageData.__init__`. -/
def unsupportedMsg (language : String) : String :=
  "\"" ++ language ++ "\" is not a supported language"

/-! ## The group accumulator (`_check_validity`, `_check_large_multiplier`,
`_build_number`) -/

/-- `_check_validity`: identifies whether the new token can continue building
the previous number. -/
def _check_validity (current_token : String) (previous_token : Option String)
    (previous_power_of_10 : Option Nat) (total_value current_grp_value : Nat)
    (lang_data : LanguageData) : Bool :=
  if memT lang_data.unit_and_direct_numbers current_token &&
      omem lang_data.unit_and_direct_numbers previous_token then false
  else if memT lang_data.direct_numbers current_token &&
      omem lang_data.tens previous_token then false
  else if memT lang_data.tens current_token then
    if omem lang_data.tens previous_token ||
        omem lang_data.unit_and_direct_numbers previous_token then false
    else true
  else if memT lang_data.hundreds current_token then
    if !omem lang_data.big_powers_of_ten previous_token && previous_token.isSome
      then false
    else true
  else if memT lang_data.big_powers_of_ten current_token then
    let power_of_ten := lookupV lang_data.big_powers_of_ten current_token
    if power_of_ten < current_grp_value then false
    else if total_value != 0 && previous_power_of_10.isSome &&
        power_of_ten ≥ previous_power_of_10.getD 0 then false
    else true
  else true

/-- `_check_large_multiplier`: checks if the current token (power of ten) is
larger than the total value formed till now. -/
def _check_large_multiplier (current_token : String) (total_value current_grp_value : Nat)
    (lang_data : LanguageData) : Bool :=
  let combined_value := total_value + current_grp_value
  if combined_value == 0 then false
  else if memT lang_data.big_powers_of_ten current_token then
    let large_value := lookupV lang_data.big_powers_of_ten current_token
    large_value > combined_value && large_value != 100
  else false

/-- The local variables of `_build_number`'s loop. -/
structure BuildState where
  total_value : Nat
  current_grp_value : Nat
  previous_token : Option String
  previous_power_of_10 : Option Nat
  value_list : List String
  used_skip_tokens : List String
deriving Repr, DecidableEq

def initialBuildState : BuildState :=
  { total_value := 0
    current_grp_value := 0
    previous_token := none
    previous_power_of_10 := none
    value_list := []
    used_skip_tokens := [] }

/-- One iteration of `_build_number`'s loop. -/
def buildStep (lang_data : LanguageData) (st : BuildState) (token : String) : BuildState :=
  if pyIsSpace token || token == "" then st
  else if lang_data.skip_tokens.contains token then
    { st with used_skip_tokens := st.used_skip_tokens ++ [token] }
  else if _check_large_multiplier token st.total_value st.current_grp_value lang_data then
    let combined_value := st.total_value + st.current_grp_value
    { st with
      total_value := combined_value * lookupV lang_data.big_powers_of_ten token
      previous_token := some token
      current_grp_value := 0
      used_skip_tokens := []
      previous_power_of_10 := some (lookupV lang_data.big_powers_of_ten token) }
  else
    let valid := _check_validity token st.previous_token st.previous_power_of_10
      st.total_value st.current_grp_value lang_data
    let st1 := if valid then st else
      { st with
        total_value := 0
        current_grp_value := 0
        value_list := st.value_list ++ [Nat.repr (st.total_value + st.current_grp_value)]
          ++ st.used_skip_tokens
        previous_power_of_10 := none }
    let st2 :=
      if memT lang_data.unit_and_direct_numbers token then
        { st1 with current_grp_value :=
            st1.current_grp_value + lookupV lang_data.unit_and_direct_numbers token }
      else if memT lang_data.tens token then
        { st1 with current_grp_value :=
            st1.current_grp_value + lookupV lang_data.tens token }
      else if memT lang_data.hundreds token then
        { st1 with current_grp_value :=
            st1.current_grp_value + lookupV lang_data.hundreds token }
      else if memT lang_data.big_powers_of_ten token then
        let power_of_ten := lookupV lang_data.big_powers_of_ten token
        let g := if st1.current_grp_value == 0 then 1 else st1.current_grp_value
        let g := g * power_of_ten
        if power_of_ten > lang_data.maximum_group_value then
          { st1 with
            total_value := st1.total_value + g
            current_grp_value := 0
            previous_power_of_10 := some power_of_ten }
        else
          { st1 with current_grp_value := g }
      else st1
    { st2 with
      previous_token := some token
      used_skip_tokens := [] }

/-- `_build_number`: incrementally builds a number from the list of tokens. -/
def _build_number (token_list : List String) (lang_data : LanguageData) : List String :=
  let st := token_list.foldl (buildStep lang_data) initialBuildState
  st.value_list ++ [Nat.repr (st.total_value + st.current_grp_value)]

/-! ## Single-number resolver (`parse_number`, `parse_ordinal`) -/

/-- The irregular ordinal-to-cardinal word substitutions of
`_apply_cardinal_conversion`, in the source's (insertion) order. -/
def CARDINAL_DIRECT_NUMBERS : List (String × String) :=
  [("first", "one"), ("second", "two"), ("third", "three"), ("fifth", "five"),
   ("eighth", "eight"), ("ninth", "nine"), ("twelfth", "twelve")]

/-- `_apply_cardinal_conversion`: lowercase, apply the irregular substitutions,
`re.sub(r'ieth$', 'y')`, then `re.sub(r'th$', '')` — each `$` matching at the
end of the string or just before a final newline (see `pyReSubSuffix`). The
`language` parameter is unused, as in the source. -/
def _apply_cardinal_conversion (input_string : String) (language : String) : String :=
  let _ := language
  let s := pyToLower input_string
  let s := CARDINAL_DIRECT_NUMBERS.foldl (fun acc p => pyReplace acc p.1 p.2) s
  let s := pyReSubSuffix s "ieth" "y"
  pyReSubSuffix s "th" ""

/-- The ordinal-to-cardinal surface transformation exactly as the claim and
spec describe it (to be compared with the source's
`_apply_cardinal_conversion`): lowercase, the irregular substitutions, rewrite
a trailing "ieth" to "y", then strip a trailing "th" — trailing meaning at the
very end of the string. -/
def specCardinalConversion (input_string : String) : String :=
  let s := pyToLower input_string
  let s := CARDINAL_DIRECT_NUMBERS.foldl (fun acc p => pyReplace acc p.1 p.2) s
  let s := if pyEndsWith s "ieth" then pyDropRight s 4 ++ "y" else s
  if pyEndsWith s "th" then pyDropRight s 2 else s

/-- The token pre-check loop of `parse_number`: every token must be in
`all_numbers`, whitespace, empty, or a skip token at an index other than 0;
otherwise the function returns `None` before the accumulator runs. -/
def precheckOk (lang_data : LanguageData) (tokens : List String) : Bool :=
  (List.range tokens.length).all fun index =>
    let token := tokens.getD index ""
    memT lang_data.all_numbers token || pyIsSpace token || token == "" ||
      (lang_data.skip_tokens.contains token && index != 0)

/-- The body of `parse_number` after the `LanguageData` construction
succeeded: digit literals short-circuit; otherwise tokenize, normalize,
pre-check, run the accumulator, and succeed only on exactly one segment. -/
def parseNumberCore (input_string : String) (language : String)
    (lang_data : LanguageData) : Option Nat :=
  if pyIsNumeric input_string then some (strToNat input_string)
  else
    let tokens := _tokenize input_string language
    let normalized_tokens := _normalize_tokens tokens
    if precheckOk lang_data normalized_tokens then
      let number_built := _build_number normalized_tokens lang_data
      if number_built.length == 1 then number_built.head?.bind pyIntOfStr
      else none
    else none

/-- `parse_number`: converts a single number written in natural language to a
numeric type; `Except.error` embeds the `ValueError` for an unsupported
language, `Option.none` the `None` (no match) result. -/
def parse_number (input_string : String) (language : String) :
    Except String (Option Nat) :=
  match getLanguageData language with
  | none => .error (unsupportedMsg language)
  | some lang_data => .ok (parseNumberCore input_string language lang_data)

/-- `parse_ordinal`: applies the ordinal-to-cardinal conversion to the whole
input, then delegates to `parse_number`. -/
def parse_ordinal (input_string : String) (language : String) :
    Except String (Option Nat) :=
  parse_number (_apply_cardinal_conversion input_string language) language

/-! ## Token classification and the sentence scanner (`parse`) -/

/-- `_is_cardinal_token` (with the `LanguageData` already resolved). -/
def _is_cardinal_token (token : String) (lang_data : LanguageData) : Bool :=
  memT lang_data.all_numbers token

/-- `_is_ordinal_token`. -/
def _is_ordinal_token (token : String) (language : String)
    (lang_data : LanguageData) : Bool :=
  _is_cardinal_token (_apply_cardinal_conversion token language) lang_data

/-- `_is_skip_token`. -/
def _is_skip_token (token : String) (lang_data : LanguageData) : Bool :=
  lang_data.skip_tokens.contains token

/-- `is_number_token`. -/
def is_number_token (token : String) (language : String)
    (lang_data : LanguageData) : Bool :=
  _is_cardinal_token token lang_data || _is_ordinal_token token language lang_data

/-- The string a buffered run is joined into by `_parse_number_tokens`:
each raw token lower-cased then accent-stripped, concatenated. -/
def currentNumberStr (current_number : List String) : String :=
  strJoin (current_number.map (fun t => _strip_accents (pyToLower t)))

/-- Python falsiness of the resolver result: `None` and `0` are both falsy. -/
def pyFalsyOpt : Option Nat → Bool
  | none => true
  | some n => n == 0

/-- `_parse_number_tokens`: join the buffered run (lower-cased,
accent-stripped), try `parse_number` with the requested language, fall back to
`parse_ordinal` with its default language `'en'` when the result is falsy, and
render the result as a digit string when truthy, the joined run text
otherwise. -/
def _parse_number_tokens (current_number : List String) (language : String)
    (lang_data : LanguageData) : String :=
  let current_number_str := currentNumberStr current_number
  let number := parseNumberCore current_number_str language lang_data
  let number :=
    if pyFalsyOpt number then
      parseNumberCore (_apply_cardinal_conversion current_number_str "en") "en" enData
    else number
  match number with
  | some n => if n == 0 then current_number_str else Nat.repr n
  | none => current_number_str

/-- The local variables of `parse`'s scanner loop. -/
structure ParseState where
  sentence : List String
  current_number : List String
  building_number : Bool
deriving Repr, DecidableEq

def initialParseState : ParseState :=
  { sentence := [], current_number := [], building_number := false }

/-- One iteration of `parse`'s scanner loop. -/
def parseStep (language : String) (lang_data : LanguageData)
    (st : ParseState) (token : String) : ParseState :=
  let normalized_token := _strip_accents (pyToLower token)
  let is_number := is_number_token normalized_token language lang_data
  if !st.building_number then
    if is_number then
      { st with
        building_number := true
        current_number := st.current_number ++ [token] }
    else
      { st with sentence := st.sentence ++ [token] }
  else
    if is_number || pyIsSpace token || token == "" ||
        _is_skip_token token lang_data then
      { st with current_number := st.current_number ++ [token] }
    else
      let number := _parse_number_tokens st.current_number language lang_data
      let sentence := st.sentence ++ [number]
      let sentence :=
        if pyIsSpace (st.current_number.getLastD "") then
          sentence ++ [st.current_number.getLastD ""]
        else sentence
      let sentence := sentence ++ [token]
      { sentence := sentence
        current_number := []
        building_number := false }

/-- `parse`: converts all the numbers in a sentence to their numeric form,
keeping other words unchanged. The unsupported-language `ValueError` is raised
lazily by `is_number_token` inside the loop, hence only when there is at least
one token; the general tokenizer always yields at least one token, so the
empty-token guard is reachable only for the whitespace-splitting languages,
which are all supported. -/
def parse (input_string : String) (language : String) : Except String String :=
  let tokens := _tokenize input_string language
  match getLanguageData language with
  | some lang_data =>
    let st := tokens.foldl (parseStep language lang_data) initialParseState
    let sentence :=
      if st.building_number then
        st.sentence ++ [_parse_number_tokens st.current_number language lang_data]
      else st.sentence
    .ok (strJoin sentence)
  | none =>
    if tokens.isEmpty then .ok (strJoin [])
    else .error (unsupportedMsg language)

/-! ## Helper lemmas -/

theorem data_mk (l : List Char) : (String.mk l).data = l := rfl

theorem strMk_data (s : String) : String.mk s.data = s := by
  cases s
  rfl

theorem splitWAux_flatten (cs : List Char) :
    ∀ acc : List Char, (splitWAux cs acc).flatten = acc.reverse ++ cs := by
  induction cs with
  | nil =>
    intro acc
    simp [splitWAux]
  | cons c rest ih =>
    intro acc
    by_cases h : isWordChar c = true
    · simp [splitWAux, h, ih]
    · simp [splitWAux, h, ih]

theorem splitWAux_ne_nil (cs : List Char) : ∀ acc : List Char, splitWAux cs acc ≠ [] := by
  induction cs with
  | nil =>
    intro acc
    simp [splitWAux]
  | cons c rest ih =>
    intro acc
    by_cases h : isWordChar c = true
    · simpa [splitWAux, h] using ih (c :: acc)
    · simp [splitWAux, h]

theorem strJoin_map_mk (ls : List (List Char)) :
    strJoin (ls.map String.mk) = String.mk ls.flatten := by
  simp [strJoin, List.map_map, Function.comp_def, data_mk]

theorem strJoin_reSplitW (s : String) : strJoin (reSplitW s) = s := by
  unfold reSplitW
  rw [strJoin_map_mk, splitWAux_flatten]
  simp [strMk_data]

theorem reSplitW_ne_nil (s : String) : reSplitW s ≠ [] := by
  unfold reSplitW
  simp [splitWAux_ne_nil]

theorem strJoin_tokenize (input_string language : String)
    (h : RE_BUG_LANGUAGES.contains language = false) :
    strJoin (_tokenize input_string language) = removeSoftHyphens input_string := by
  unfold _tokenize
  simp only [h, Bool.false_eq_true, if_false, strJoin_reSplitW]

theorem tokenize_ne_nil (input_string language : String)
    (h : RE_BUG_LANGUAGES.contains language = false) :
    _tokenize input_string language ≠ [] := by
  unfold _tokenize
  simp only [h, Bool.false_eq_true, if_false]
  exact reSplitW_ne_nil _

theorem beq_empty_false {token : String} (h : token ≠ "") : (token == "") = false := by
  simpa using h

theorem check_large_multiplier_true (lang_data : LanguageData) (token : String)
    (total_value current_grp_value S : Nat)
    (hlk : lang_data.big_powers_of_ten.lookup token = some S)
    (h0 : total_value + current_grp_value ≠ 0)
    (hS : total_value + current_grp_value < S) (h100 : S ≠ 100) :
    _check_large_multiplier token total_value current_grp_value lang_data = true := by
  unfold _check_large_multiplier
  have hc : (total_value + current_grp_value == 0) = false := by simpa using h0
  simp [hc, memT, lookupV, hlk, hS, h100]

theorem check_validity_tens_false (lang_data : LanguageData)
    (current_token previous_token : String) (previous_power_of_10 : Option Nat)
    (total_value current_grp_value : Nat)
    (hct : memT lang_data.tens current_token = true)
    (hp : memT lang_data.tens previous_token = true ∨
      memT lang_data.unit_and_direct_numbers previous_token = true) :
    _check_validity current_token (some previous_token) previous_power_of_10
      total_value current_grp_value lang_data = false := by
  unfold _check_validity
  by_cases hA : (memT lang_data.unit_and_direct_numbers current_token &&
      omem lang_data.unit_and_direct_numbers (some previous_token)) = true
  · rw [if_pos hA]
  · rw [if_neg hA]
    by_cases hB : (memT lang_data.direct_numbers current_token &&
        omem lang_data.tens (some previous_token)) = true
    · rw [if_pos hB]
    · rw [if_neg hB, if_pos hct, if_pos]
      cases hp with
      | inl h => simp [omem, h]
      | inr h => simp [omem, h]

theorem buildStep_invalid_value_list (lang_data : LanguageData) (st : BuildState)
    (token : String)
    (h1 : pyIsSpace token = false) (h2 : token ≠ "")
    (h3 : lang_data.skip_tokens.contains token = false)
    (hlm : _check_large_multiplier token st.total_value st.current_grp_value lang_data = false)
    (hv : _check_validity token st.previous_token st.previous_power_of_10
      st.total_value st.current_grp_value lang_data = false) :
    (buildStep lang_data st token).value_list =
      st.value_list ++ [Nat.repr (st.total_value + st.current_grp_value)]
        ++ st.used_skip_tokens := by
  unfold buildStep
  simp only [h1, beq_empty_false h2, h3, hlm, hv, Bool.or_self, Bool.false_eq_true,
    if_false]
  repeat' split
  all_goals simp

theorem parse_number_tokens_fallback (current_number : List String) (language : String)
    (lang_data : LanguageData)
    (h : pyFalsyOpt (parseNumberCore (currentNumberStr current_number)
      language lang_data) = true) :
    _parse_number_tokens current_number language lang_data =
      match parseNumberCore
          (_apply_cardinal_conversion (currentNumberStr current_number) "en")
          "en" enData with
      | some n => if n == 0 then currentNumberStr current_number else Nat.repr n
      | none => currentNumberStr current_number := by
  unfold _parse_number_tokens
  simp only [h, if_true]

theorem parse_number_tokens_failed (current_number : List String) (language : String)
    (lang_data : LanguageData)
    (h1 : pyFalsyOpt (parseNumberCore (currentNumberStr current_number)
      language lang_data) = true)
    (h2 : pyFalsyOpt (parseNumberCore
      (_apply_cardinal_conversion (currentNumberStr current_number) "en")
      "en" enData) = true) :
    _parse_number_tokens current_number language lang_data =
      currentNumberStr current_number := by
  rw [parse_number_tokens_fallback current_number language lang_data h1]
  cases hx : parseNumberCore
      (_apply_cardinal_conversion (currentNumberStr current_number) "en") "en" enData with
  | none => rfl
  | some n =>
    rw [hx] at h2
    simp only [pyFalsyOpt, beq_iff_eq] at h2
    simp [h2]

theorem parseStep_not_building_not_number (language : String) (lang_data : LanguageData)
    (st : ParseState) (token : String)
    (h1 : st.building_number = false)
    (h2 : is_number_token (_strip_accents (pyToLower token)) language lang_data = false) :
    parseStep language lang_data st token =
      { st with sentence := st.sentence ++ [token] } := by
  unfold parseStep
  simp only [h1, h2, Bool.not_false, if_true, Bool.false_eq_true, if_false]

theorem parseLoop_no_number (language : String) (lang_data : LanguageData) :
    ∀ (tokens : List String) (st : ParseState), st.building_number = false →
      (∀ token ∈ tokens,
        is_number_token (_strip_accents (pyToLower token)) language lang_data = false) →
      tokens.foldl (parseStep language lang_data) st =
        { st with sentence := st.sentence ++ tokens } := by
  intro tokens
  induction tokens with
  | nil =>
    intro st h1 _
    simp
  | cons t rest ih =>
    intro st h1 h2
    have hnum := h2 t (List.mem_cons_self t rest)
    simp only [List.foldl_cons]
    rw [parseStep_not_building_not_number language lang_data st t h1 hnum]
    rw [ih { st with sentence := st.sentence ++ [t] } h1
      (fun tok htok => h2 tok (List.mem_cons_of_mem t htok))]
    simp

theorem getLanguageData_none (language : String)
    (h : SUPPORTED_LANGUAGES.contains language = false) :
    getLanguageData language = none := by
  unfold getLanguageData
  simp only [h, Bool.false_eq_true, if_false]

theorem pyEndsWith_iff (s t : String) : pyEndsWith s t = true ↔ t.data <:+ s.data := by
  unfold pyEndsWith
  exact List.isSuffixOf_iff_suffix

theorem pyEndsWith_pat_newline (t pat : String)
    (hln : pyEndsWith t "\n" = false) : pyEndsWith t (pat ++ "\n") = false := by
  rw [Bool.eq_false_iff] at hln ⊢
  intro hcon
  apply hln
  rw [pyEndsWith_iff] at hcon ⊢
  refine List.IsSuffix.trans ?_ hcon
  rw [String.data_append]
  exact List.suffix_append pat.data ("\n").data

theorem pyEndsWith_append_y_newline (t : String) :
    pyEndsWith (t ++ "y") "\n" = false := by
  rw [Bool.eq_false_iff]
  intro hcon
  rw [pyEndsWith_iff, String.data_append] at hcon
  rcases hcon with ⟨pre, hpre⟩
  have hpre2 : t.data ++ ['y'] = pre ++ ['\n'] := hpre.symm
  have hlast := congrArg List.getLast? hpre2
  rw [List.getLast?_concat, List.getLast?_concat] at hlast
  exact absurd (Option.some.inj hlast) (by decide)

/-! ## Claims -/

/-- Claim C1: in `_build_number`, when the running value `combined =
totalValue + currentGroupValue` is non-zero and the current token is a
big-power word of scale `S` with `S > combined` and `S ≠ 100`, the step is a
multiplicative closure: `totalValue` becomes `combined × S`,
`currentGroupValue` becomes `0`, the pending skip-token buffer is cleared,
`previousPowerOfTen` becomes `S`, the token is recorded as previous, and no
per-category accumulation happens for the token. Consequently, for the
English lexicon, "one thousand two hundred" parses to 1200, "two hundred
thousand" to 200000, and "one hundred thousand two hundred" to 100200. -/
theorem claim_C1 :
    (∀ (lang_data : LanguageData) (st : BuildState) (token : String) (S : Nat),
      pyIsSpace token = false → token ≠ "" →
      lang_data.skip_tokens.contains token = false →
      lang_data.big_powers_of_ten.lookup token = some S →
      st.total_value + st.current_grp_value ≠ 0 →
      st.total_value + st.current_grp_value < S →
      S ≠ 100 →
      buildStep lang_data st token =
        { st with
          total_value := (st.total_value + st.current_grp_value) * S
          current_grp_value := 0
          previous_token := some token
          previous_power_of_10 := some S
          used_skip_tokens := [] }) ∧
    parse_number "one thousand two hundred" "en" = .ok (some 1200) ∧
    parse_number "two hundred thousand" "en" = .ok (some 200000) ∧
    parse_number "one hundred thousand two hundred" "en" = .ok (some 100200) := by
  refine ⟨?_, rfl, rfl, rfl⟩
  intro lang_data st token S h1 h2 h3 hlk h0 hS h100
  have hlm : _check_large_multiplier token st.total_value st.current_grp_value
      lang_data = true :=
    check_large_multiplier_true lang_data token st.total_value st.current_grp_value S
      hlk h0 hS h100
  unfold buildStep
  simp only [h1, beq_empty_false h2, h3, hlm, Bool.or_self, Bool.false_eq_true,
    if_false, if_true, lookupV, hlk, Option.getD_some]

/-- Claim C2: in `_build_number`, a ten token whose preceding numeral token is
another ten token or a unit-or-direct token is invalid and triggers a
boundary: the current number is closed and emitted as an integer segment
(with the buffered skip tokens flushed after it) and a new number begins with
the ten token. In particular, the English token sequence ["twenty", "two",
"ten"] yields exactly the two integer segments 22 and 10, in that order. -/
theorem claim_C2 :
    (∀ (lang_data : LanguageData) (current_token previous_token : String)
      (previous_power_of_10 : Option Nat) (total_value current_grp_value : Nat),
      memT lang_data.tens current_token = true →
      (memT lang_data.tens previous_token = true ∨
        memT lang_data.unit_and_direct_numbers previous_token = true) →
      _check_validity current_token (some previous_token) previous_power_of_10
        total_value current_grp_value lang_data = false) ∧
    (∀ (lang_data : LanguageData) (st : BuildState) (token previous : String),
      pyIsSpace token = false → token ≠ "" →
      lang_data.skip_tokens.contains token = false →
      _check_large_multiplier token st.total_value st.current_grp_value lang_data = false →
      st.previous_token = some previous →
      memT lang_data.tens token = true →
      (memT lang_data.tens previous = true ∨
        memT lang_data.unit_and_direct_numbers previous = true) →
      (buildStep lang_data st token).value_list =
        st.value_list ++ [Nat.repr (st.total_value + st.current_grp_value)]
          ++ st.used_skip_tokens) ∧
    _build_number ["twenty", "two", "ten"] enData = ["22", "10"] := by
  refine ⟨check_validity_tens_false, ?_, rfl⟩
  intro lang_data st token previous h1 h2 h3 hlm hprev hten hp
  have hv : _check_validity token st.previous_token st.previous_power_of_10
      st.total_value st.current_grp_value lang_data = false := by
    rw [hprev]
    exact check_validity_tens_false lang_data token previous st.previous_power_of_10
      st.total_value st.current_grp_value hten hp
  exact buildStep_invalid_value_list lang_data st token h1 h2 h3 hlm hv

/-- Claim C3: the lexicon's `maximum_group_value` is 10000 for a long-scale
language and 100 otherwise (shown generically and for the English and Hindi
lexicons); and in `_build_number`, when a big-power token of scale `S` is
accumulated as a valid continuation (not consumed as a multiplicative
closure), `currentGroupValue` (with 0 treated as 1) is multiplied by `S`, and
the group is closed early (added into `totalValue`, reset to 0,
`previousPowerOfTen := S`) exactly when `S` strictly exceeds
`maximum_group_value`. -/
theorem claim_C3 :
    (∀ info : LanguageInfo, (LanguageData.ofInfo info).maximum_group_value =
      if info.USE_LONG_SCALE then 10000 else 100) ∧
    enData.maximum_group_value = 100 ∧
    hiData.maximum_group_value = 10000 ∧
    (∀ (lang_data : LanguageData) (st : BuildState) (token : String) (S : Nat),
      pyIsSpace token = false → token ≠ "" →
      lang_data.skip_tokens.contains token = false →
      _check_large_multiplier token st.total_value st.current_grp_value lang_data = false →
      _check_validity token st.previous_token st.previous_power_of_10
        st.total_value st.current_grp_value lang_data = true →
      memT lang_data.unit_and_direct_numbers token = false →
      memT lang_data.tens token = false →
      memT lang_data.hundreds token = false →
      lang_data.big_powers_of_ten.lookup token = some S →
      buildStep lang_data st token =
        (if S > lang_data.maximum_group_value then
          { st with
            total_value := st.total_value +
              (if st.current_grp_value == 0 then 1 else st.current_grp_value) * S
            current_grp_value := 0
            previous_token := some token
            previous_power_of_10 := some S
            used_skip_tokens := [] }
        else
          { st with
            current_grp_value :=
              (if st.current_grp_value == 0 then 1 else st.current_grp_value) * S
            previous_token := some token
            used_skip_tokens := [] })) := by
  refine ⟨fun _ => rfl, rfl, rfl, ?_⟩
  intro lang_data st token S h1 h2 h3 hlm hv hud hten hhun hlk
  have hmem : memT lang_data.big_powers_of_ten token = true := by
    simp [memT, hlk]
  unfold buildStep
  simp only [h1, beq_empty_false h2, h3, hlm, hv, Bool.or_self, Bool.false_eq_true,
    if_false, if_true, hud, hten, hhun, hmem, lookupV, hlk, Option.getD_some]
  split
  · rfl
  · rfl

/-- Claim C4 counterexample: for the English lexicon, every normalized token
of "and one" is a skip word, a lexicon number word, or whitespace, and the
accumulator would resolve the sequence to the single integer segment 1 — yet
`parse_number` returns no match, because the skip word "and" sits at token
index 0. This falsifies the claim that a skip word never causes the
rejection regardless of its position. -/
theorem claim_C4_counterexample :
    parse_number "and one" "en" = .ok none ∧
    (_normalize_tokens (_tokenize "and one" "en")).all
      (fun t => memT enData.all_numbers t || pyIsSpace t || t == "" ||
        enData.skip_tokens.contains t) = true ∧
    _build_number (_normalize_tokens (_tokenize "and one" "en")) enData = ["1"] :=
  ⟨rfl, rfl, rfl⟩

/-- Claim C4 (amended): for every lexicon, the pre-check of `parse_number`
(on a non-digit-literal input, run before the accumulator) accepts exactly
when every normalized token is a lexicon number word, whitespace, empty, or a
skip word at a token index other than 0 — a skip word at index 0 does cause
rejection; and whenever the pre-check fails, `parse_number` returns no match
without consulting the accumulator. -/
theorem claim_C4 :
    (∀ (lang_data : LanguageData) (tokens : List String),
      precheckOk lang_data tokens = true ↔
        ∀ index, index < tokens.length →
          memT lang_data.all_numbers (tokens.getD index "") = true ∨
          pyIsSpace (tokens.getD index "") = true ∨
          tokens.getD index "" = "" ∨
          (lang_data.skip_tokens.contains (tokens.getD index "") = true ∧ index ≠ 0)) ∧
    (∀ (input_string language : String) (lang_data : LanguageData),
      pyIsNumeric input_string = false →
      precheckOk lang_data (_normalize_tokens (_tokenize input_string language)) = false →
      parseNumberCore input_string language lang_data = none) := by
  constructor
  · intro lang_data tokens
    unfold precheckOk
    simp only [List.all_eq_true, List.mem_range, Bool.or_eq_true, Bool.and_eq_true,
      bne_iff_ne, beq_iff_eq, ne_eq]
    constructor
    · intro h index hlt
      rcases h index hlt with ((ha | hb) | hc) | hd
      · exact Or.inl ha
      · exact Or.inr (Or.inl hb)
      · exact Or.inr (Or.inr (Or.inl hc))
      · exact Or.inr (Or.inr (Or.inr hd))
    · intro h index hlt
      rcases h index hlt with ha | hb | hc | hd
      · exact Or.inl (Or.inl (Or.inl ha))
      · exact Or.inl (Or.inl (Or.inr hb))
      · exact Or.inl (Or.inr hc)
      · exact Or.inr hd
  · intro input_string language lang_data h1 h2
    unfold parseNumberCore
    simp only [h1, h2, Bool.false_eq_true, if_false]

/-- Claim C5 counterexample: the run "Ten ten" fails both the cardinal parse
and the ordinal fallback, and `parse` emits "ten ten" — the lowercased form,
not the original text "Ten ten". This falsifies the claim that the run's
original text is emitted unchanged with its casing preserved. -/
theorem claim_C5_counterexample :
    parse "Ten ten" "en" = .ok "ten ten" ∧ ("ten ten" : String) ≠ "Ten ten" :=
  ⟨rfl, by decide⟩

/-- Claim C5 (amended): when a buffered number run fails to resolve under
both the cardinal parse and the ordinal fallback, the run is emitted as its
lowercased, accent-stripped joined text (so skip words inside the run are
neither duplicated nor dropped, but the original casing and accents are not
restored), followed by the trailing-whitespace token if any and the boundary
token. -/
theorem claim_C5 :
    (∀ (current_number : List String) (language : String) (lang_data : LanguageData),
      pyFalsyOpt (parseNumberCore (currentNumberStr current_number)
        language lang_data) = true →
      pyFalsyOpt (parseNumberCore
        (_apply_cardinal_conversion (currentNumberStr current_number) "en")
        "en" enData) = true →
      _parse_number_tokens current_number language lang_data =
        currentNumberStr current_number) ∧
    (∀ (language : String) (lang_data : LanguageData) (st : ParseState) (token : String),
      st.building_number = true →
      is_number_token (_strip_accents (pyToLower token)) language lang_data = false →
      pyIsSpace token = false → token ≠ "" →
      _is_skip_token token lang_data = false →
      (parseStep language lang_data st token).sentence =
        st.sentence ++ [_parse_number_tokens st.current_number language lang_data] ++
          (if pyIsSpace (st.current_number.getLastD "") then
            [st.current_number.getLastD ""] else []) ++ [token]) := by
  refine ⟨parse_number_tokens_failed, ?_⟩
  intro language lang_data st token h1 h2 h3 h4 h5
  unfold parseStep
  simp only [h1, h2, h3, h4, h5, beq_empty_false h4, Bool.not_true, Bool.or_self,
    Bool.false_eq_true, if_false, Bool.false_or]
  split
  · simp [List.append_assoc]
  · simp [List.append_assoc]

/-- Claim C6: for every language code outside the supported set
{en, es, hi, ru}, `parse_number`, `parse_ordinal` and `parse` all fail with
the unsupported-language `ValueError` — never with a no-match result, a
default language, or a normal return — even when the input is a pure digit
literal (the check precedes the digit shortcut). -/
theorem claim_C6 :
    ∀ language : String, SUPPORTED_LANGUAGES.contains language = false →
      ∀ input_string : String,
        parse_number input_string language = .error (unsupportedMsg language) ∧
        parse_ordinal input_string language = .error (unsupportedMsg language) ∧
        parse input_string language = .error (unsupportedMsg language) := by
  intro language h input_string
  have hnone : getLanguageData language = none := getLanguageData_none language h
  have hre : RE_BUG_LANGUAGES.contains language = false := by
    unfold RE_BUG_LANGUAGES
    by_contra hcon
    simp only [Bool.not_eq_false] at hcon
    simp only [List.contains_cons, List.contains_nil, Bool.or_false,
      beq_iff_eq] at hcon
    rw [hcon] at h
    simp [SUPPORTED_LANGUAGES] at h
  refine ⟨?_, ?_, ?_⟩
  · unfold parse_number
    rw [hnone]
  · unfold parse_ordinal parse_number
    rw [hnone]
  · unfold parse
    rw [hnone]
    simp only [List.isEmpty_iff]
    rw [if_neg (tokenize_ne_nil input_string language hre)]

/-- Claim C7 counterexample: `parse` deletes soft hyphens: on the input
"a­b", which contains no numeral words, it returns "ab", not the input
unchanged. This falsifies the claim that any numeral-free input is returned
character for character. -/
theorem claim_C7_counterexample :
    parse "a­b" "en" = .ok "ab" ∧ ("ab" : String) ≠ "a­b" :=
  ⟨rfl, by decide⟩

/-- Claim C7 (amended): for every supported language that uses the general
tokenizer (i.e. not the whitespace-only splitting languages), and every input
none of whose tokens is classified as a cardinal-or-ordinal numeral token,
`parse` returns the input with all soft-hyphen characters removed and
otherwise unchanged, including all whitespace and punctuation. -/
theorem claim_C7 :
    ∀ (input_string language : String) (lang_data : LanguageData),
      getLanguageData language = some lang_data →
      RE_BUG_LANGUAGES.contains language = false →
      (∀ token ∈ _tokenize input_string language,
        is_number_token (_strip_accents (pyToLower token)) language lang_data = false) →
      parse input_string language = .ok (removeSoftHyphens input_string) := by
  intro input_string language lang_data hld hre hnum
  unfold parse
  simp only [hld]
  rw [parseLoop_no_number language lang_data (_tokenize input_string language)
    initialParseState rfl hnum]
  simp only [initialParseState, List.nil_append, Bool.false_eq_true, if_false]
  rw [strJoin_tokenize input_string language hre]

/-- Claim C8 counterexample: on the input "fourth\n", `parse_ordinal` strips
the "th" sitting just before the final newline (Python's `$` matches there)
and resolves to 4, while the transformation as the claim describes it —
stripping only a trailing "th" — leaves "fourth\n", on which `parse_number`
finds no match. So `parse_ordinal` is not `parse_number` composed with the
claim's described transformation for every input. -/
theorem claim_C8_counterexample :
    parse_ordinal "fourth\n" "en" = .ok (some 4) ∧
    specCardinalConversion "fourth\n" = "fourth\n" ∧
    parse_number (specCardinalConversion "fourth\n") "en" = .ok none ∧
    parse_ordinal "fourth\n" "en" ≠
      parse_number (specCardinalConversion "fourth\n") "en" := by
  refine ⟨rfl, rfl, rfl, ?_⟩
  intro hcon
  rw [show parse_ordinal "fourth\n" "en" =
    (Except.ok (some 4) : Except String (Option Nat)) from rfl] at hcon
  rw [show parse_number (specCardinalConversion "fourth\n") "en" =
    (Except.ok none : Except String (Option Nat)) from rfl] at hcon
  simp at hcon

/-- Claim C8 (amended): for every input and language, `parse_ordinal` equals
`parse_number` applied to the ordinal-to-cardinal surface transformation of
the whole input, which is exactly: lowercase, then the irregular
substitutions first→one, second→two, third→three, fifth→five, eighth→eight,
ninth→nine, twelfth→twelve (in that order), then rewrite an "ieth" at the end
of the string — or immediately before a single final newline — to "y", then
likewise strip a final "th" (the two suffix rules are `re.sub` with a
`$`-anchored pattern, and `$` also matches just before a terminal newline).
On inputs not ending in a newline this is the transformation as originally
described; in particular `parse_ordinal "twenty third"` is 23. -/
theorem claim_C8 :
    (∀ input_string language : String,
      parse_ordinal input_string language =
        parse_number (_apply_cardinal_conversion input_string language) language) ∧
    (∀ input_string language : String,
      _apply_cardinal_conversion input_string language =
        (let s := pyToLower input_string
         let s := pyReplace s "first" "one"
         let s := pyReplace s "second" "two"
         let s := pyReplace s "third" "three"
         let s := pyReplace s "fifth" "five"
         let s := pyReplace s "eighth" "eight"
         let s := pyReplace s "ninth" "nine"
         let s := pyReplace s "twelfth" "twelve"
         let s := pyReSubSuffix s "ieth" "y"
         pyReSubSuffix s "th" "")) ∧
    (∀ input_string language : String,
      pyEndsWith (CARDINAL_DIRECT_NUMBERS.foldl (fun acc p => pyReplace acc p.1 p.2)
        (pyToLower input_string)) "\n" = false →
      _apply_cardinal_conversion input_string language =
        specCardinalConversion input_string) ∧
    parse_ordinal "twenty third" "en" = .ok (some 23) := by
  refine ⟨fun _ _ => rfl, fun _ _ => rfl, ?_, rfl⟩
  intro input_string language hnl
  simp only [_apply_cardinal_conversion, specCardinalConversion, pyReSubSuffix]
  simp only [show ("ieth" : String).data.length = 4 from rfl,
    show ("th" : String).data.length = 2 from rfl]
  set s1 := CARDINAL_DIRECT_NUMBERS.foldl (fun acc p => pyReplace acc p.1 p.2)
    (pyToLower input_string) with hs1
  have hi2 : pyEndsWith s1 ("ieth" ++ "\n") = false :=
    pyEndsWith_pat_newline s1 "ieth" hnl
  have ht2 : pyEndsWith s1 ("th" ++ "\n") = false :=
    pyEndsWith_pat_newline s1 "th" hnl
  by_cases h1 : pyEndsWith s1 "ieth" = true
  · simp only [h1, if_true]
    have hXn : pyEndsWith (pyDropRight s1 4 ++ "y") "\n" = false :=
      pyEndsWith_append_y_newline (pyDropRight s1 4)
    have hX2 : pyEndsWith (pyDropRight s1 4 ++ "y") ("th" ++ "\n") = false :=
      pyEndsWith_pat_newline (pyDropRight s1 4 ++ "y") "th" hXn
    by_cases h2 : pyEndsWith (pyDropRight s1 4 ++ "y") "th" = true
    · simp only [h2, if_true, String.append_empty]
    · simp only [h2, hX2, Bool.false_eq_true, if_false]
  · rw [Bool.not_eq_true] at h1
    simp only [h1, hi2, Bool.false_eq_true, if_false]
    by_cases h2 : pyEndsWith s1 "th" = true
    · simp only [h2, if_true, String.append_empty]
    · rw [Bool.not_eq_true] at h2
      simp only [h2, ht2, Bool.false_eq_true, if_false]

/-- Claim C9: the ordinal-to-cardinal transformation ignores its language
parameter, and in the sentence scanner, when the cardinal parse of a buffered
run is falsy the fallback used is exactly `parse_ordinal` of the run with the
fixed default language "en" (English lexicon), regardless of the language the
caller requested. -/
theorem claim_C9 :
    (∀ input_string l1 l2 : String,
      _apply_cardinal_conversion input_string l1 =
        _apply_cardinal_conversion input_string l2) ∧
    (∀ s : String, parse_ordinal s "en" =
      .ok (parseNumberCore (_apply_cardinal_conversion s "en") "en" enData)) ∧
    (∀ (current_number : List String) (language : String) (lang_data : LanguageData),
      pyFalsyOpt (parseNumberCore (currentNumberStr current_number)
        language lang_data) = true →
      _parse_number_tokens current_number language lang_data =
        match parseNumberCore
            (_apply_cardinal_conversion (currentNumberStr current_number) "en")
            "en" enData with
        | some n => if n == 0 then currentNumberStr current_number else Nat.repr n
        | none => currentNumberStr current_number) :=
  ⟨fun _ _ _ => rfl, fun _ => rfl, parse_number_tokens_fallback⟩

/-- Claim C10: in the sentence scanner, a buffered run whose cardinal parse
resolves to 0 is treated exactly like a failure: the ordinal fallback (with
the default language) is attempted, and when it also yields 0 or no match
the run is replaced by its lowercased, accent-stripped text rather than by
the digit string "0" — so `parse "zero"` yields "zero", never "0". -/
theorem claim_C10 :
    (∀ (current_number : List String) (language : String) (lang_data : LanguageData),
      parseNumberCore (currentNumberStr current_number) language lang_data = some 0 →
      _parse_number_tokens current_number language lang_data =
        match parseNumberCore
            (_apply_cardinal_conversion (currentNumberStr current_number) "en")
            "en" enData with
        | some n => if n == 0 then currentNumberStr current_number else Nat.repr n
        | none => currentNumberStr current_number) ∧
    (∀ (current_number : List String) (language : String) (lang_data : LanguageData),
      parseNumberCore (currentNumberStr current_number) language lang_data = some 0 →
      pyFalsyOpt (parseNumberCore
        (_apply_cardinal_conversion (currentNumberStr current_number) "en")
        "en" enData) = true →
      _parse_number_tokens current_number language lang_data =
        currentNumberStr current_number) ∧
    parse "zero" "en" = .ok "zero" ∧
    ("zero" : String) ≠ "0" := by
  have hfalsy : ∀ (current_number : List String) (language : String)
      (lang_data : LanguageData),
      parseNumberCore (currentNumberStr current_number) language lang_data = some 0 →
      pyFalsyOpt (parseNumberCore (currentNumberStr current_number)
        language lang_data) = true := by
    intro current_number language lang_data h
    rw [h]
    rfl
  refine ⟨?_, ?_, rfl, by decide⟩
  · intro current_number language lang_data h
    exact parse_number_tokens_fallback current_number language lang_data
      (hfalsy current_number language lang_data h)
  · intro current_number language lang_data h h2
    exact parse_number_tokens_failed current_number language lang_data
      (hfalsy current_number language lang_data h) h2

/-! ## Witnesses -/

/-- Witness for C1: the multiplicative-closure step at the concrete state
reached after "two" when "thousand" arrives. -/
theorem claim_C1_witness :
    enData.big_powers_of_ten.lookup "thousand" = some 1000 ∧
    buildStep enData ⟨0, 2, some "two", none, [], []⟩ "thousand" =
      ⟨2000, 0, some "thousand", some 1000, [], []⟩ :=
  ⟨rfl, claim_C1.1 enData ⟨0, 2, some "two", none, [], []⟩ "thousand" 1000 rfl
    (by decide) rfl rfl (by decide) (by decide) (by decide)⟩

/-- Witness for C2: the ten token "ten" after the ten token "twenty" is
invalid. -/
theorem claim_C2_witness :
    memT enData.tens "ten" = true ∧
    _check_validity "ten" (some "twenty") none 0 20 enData = false :=
  ⟨rfl, claim_C2.1 enData "ten" "twenty" none 0 20 rfl (Or.inl rfl)⟩

/-- Witness for C3: accumulating "thousand" from the empty state closes the
group early, since 1000 exceeds the English maximum group value 100. -/
theorem claim_C3_witness :
    enData.big_powers_of_ten.lookup "thousand" = some 1000 ∧
    buildStep enData initialBuildState "thousand" =
      ⟨1000, 0, some "thousand", some 1000, [], []⟩ := by
  refine ⟨rfl, ?_⟩
  have h := claim_C3.2.2.2 enData initialBuildState "thousand" 1000 rfl (by decide)
    rfl rfl rfl rfl rfl rfl rfl
  rw [if_pos (by decide : (1000 : Nat) > enData.maximum_group_value)] at h
  exact h

/-- Witness for C4: "foo" fails the pre-check, so the resolver returns no
match without running the accumulator. -/
theorem claim_C4_witness :
    pyIsNumeric "foo" = false ∧
    precheckOk enData (_normalize_tokens (_tokenize "foo" "en")) = false ∧
    parseNumberCore "foo" "en" enData = none :=
  ⟨rfl, rfl, claim_C4.2 "foo" "en" enData rfl rfl⟩

/-- Witness for C5: the run ["tenten"] fails both parses and is replaced by
its joined lowercased text. -/
theorem claim_C5_witness :
    pyFalsyOpt (parseNumberCore (currentNumberStr ["tenten"]) "en" enData) = true ∧
    _parse_number_tokens ["tenten"] "en" enData = currentNumberStr ["tenten"] :=
  ⟨rfl, claim_C5.1 ["tenten"] "en" enData rfl rfl⟩

/-- Witness for C6: the unsupported code "xx" makes all three entry points
fail with the unsupported-language error, even on the digit literal "123". -/
theorem claim_C6_witness :
    SUPPORTED_LANGUAGES.contains "xx" = false ∧
    parse_number "123" "xx" = .error (unsupportedMsg "xx") ∧
    parse_ordinal "123" "xx" = .error (unsupportedMsg "xx") ∧
    parse "123" "xx" = .error (unsupportedMsg "xx") :=
  ⟨rfl, (claim_C6 "xx" rfl "123").1, (claim_C6 "xx" rfl "123").2.1,
    (claim_C6 "xx" rfl "123").2.2⟩

/-- Witness for C7: a numeral-free sentence is returned unchanged. -/
theorem claim_C7_witness :
    parse "hello, world!" "en" = .ok "hello, world!" := by
  exact claim_C7 "hello, world!" "en" enData rfl rfl (by decide)

/-- Witness for C9: a failing run buffered under the Spanish lexicon is
resolved by the English-default ordinal fallback. -/
theorem claim_C9_witness :
    pyFalsyOpt (parseNumberCore (currentNumberStr ["tenten"]) "es" esData) = true ∧
    _parse_number_tokens ["tenten"] "es" esData = "tenten" := by
  refine ⟨rfl, ?_⟩
  exact claim_C9.2.2 ["tenten"] "es" esData rfl

/-- Witness for C10: the run ["zero"] resolves to 0, the fallback also
yields 0, and the run text "zero" is emitted instead of "0". -/
theorem claim_C10_witness :
    parseNumberCore (currentNumberStr ["zero"]) "en" enData = some 0 ∧
    _parse_number_tokens ["zero"] "en" enData = currentNumberStr ["zero"] :=
  ⟨rfl, claim_C10.2.1 ["zero"] "en" enData rfl rfl⟩

end NumberParser
